import Mathlib

/-!
Verification of the financial core of the SunUrban repository.

The Python modules `pypsa_models/capex_analysis.py`,
`pypsa_models/optimized_scenario_config.py` and
`pypsa_models/financial_calculator.py` are shallowly embedded below.
Python floats are modelled by exact rationals (ℚ); Python dicts whose key
sets are fixed in the source are modelled by structures with one field per
key.  Division in ℚ is total (`x / 0 = 0`); wherever the Python code can
actually divide by zero the embedding makes the fault explicit with an
`Option` (see `cost_per_kw`).  The `float('inf')` sentinel for the payback
period is modelled by `none : Option ℚ`.
-/

namespace CapexAnalysis

/-- The `COST_ASSUMPTIONS` constant dictionary of `capex_analysis.py`,
flattened to one field per leaf entry. -/
structure CostAssumptions where
  solar_pv_cost_per_kw : ℚ
  battery_cost_per_kw : ℚ
  battery_cost_per_kwh : ℚ
  inverter_cost_per_kw : ℚ
  electrical_cost_per_kw : ℚ
  installation_cost_per_kw : ℚ
  engineering_cost_per_kw : ℚ
  contingency_percentage : ℚ
  itc_rate : ℚ
  opex_per_kw_annual : ℚ

/-- Values of `COST_ASSUMPTIONS` in `capex_analysis.py` (lines 16-54). -/
def COST_ASSUMPTIONS : CostAssumptions :=
  { solar_pv_cost_per_kw := 1200
    battery_cost_per_kw := 800
    battery_cost_per_kwh := 400
    inverter_cost_per_kw := 150
    electrical_cost_per_kw := 200
    installation_cost_per_kw := 250
    engineering_cost_per_kw := 100
    contingency_percentage := 1/10
    itc_rate := 0
    opex_per_kw_annual := 25 }

/-- The `costs` dictionary returned by `calculate_site_capex`, one field per
key.  `cost_per_kw` is an `Option`: the Python line
`costs['cost_per_kw'] = costs['total_capex'] / solar_capacity_kw` has no
zero guard and faults when `solar_capacity_kw = 0`; `none` records that
fault. -/
structure SiteCapex where
  solar_pv : ℚ
  battery_power : ℚ
  battery_energy : ℚ
  battery_total : ℚ
  inverter : ℚ
  electrical : ℚ
  installation : ℚ
  engineering : ℚ
  subtotal : ℚ
  contingency : ℚ
  total_capex : ℚ
  itc_credit : ℚ
  net_capex : ℚ
  cost_per_kw : Option ℚ
  annual_opex : ℚ
deriving DecidableEq

/-- `calculate_site_capex` (capex_analysis.py, lines 57-121). -/
def calculate_site_capex (solar_capacity_kw battery_power_kw battery_energy_kwh : ℚ) :
    SiteCapex :=
  let solar_pv := solar_capacity_kw * COST_ASSUMPTIONS.solar_pv_cost_per_kw
  let battery_power := battery_power_kw * COST_ASSUMPTIONS.battery_cost_per_kw
  let battery_energy := battery_energy_kwh * COST_ASSUMPTIONS.battery_cost_per_kwh
  let battery_total := battery_power + battery_energy
  let total_inverter_capacity := solar_capacity_kw + battery_power_kw
  let inverter := total_inverter_capacity * COST_ASSUMPTIONS.inverter_cost_per_kw
  let electrical := solar_capacity_kw * COST_ASSUMPTIONS.electrical_cost_per_kw
  let installation := solar_capacity_kw * COST_ASSUMPTIONS.installation_cost_per_kw
  let engineering := solar_capacity_kw * COST_ASSUMPTIONS.engineering_cost_per_kw
  let subtotal := solar_pv + battery_total + inverter + electrical + installation + engineering
  let contingency := subtotal * COST_ASSUMPTIONS.contingency_percentage
  let total_capex := subtotal + contingency
  let itc_credit := total_capex * COST_ASSUMPTIONS.itc_rate
  let net_capex := total_capex - itc_credit
  let cost_per_kw :=
    if solar_capacity_kw = 0 then none else some (total_capex / solar_capacity_kw)
  let annual_opex := solar_capacity_kw * COST_ASSUMPTIONS.opex_per_kw_annual
  { solar_pv := solar_pv
    battery_power := battery_power
    battery_energy := battery_energy
    battery_total := battery_total
    inverter := inverter
    electrical := electrical
    installation := installation
    engineering := engineering
    subtotal := subtotal
    contingency := contingency
    total_capex := total_capex
    itc_credit := itc_credit
    net_capex := net_capex
    cost_per_kw := cost_per_kw
    annual_opex := annual_opex }

/-- The NPV accumulation loop of `calculate_financial_metrics`
(`npv = -net_capex; for year in range(1, project_lifetime + 1): npv +=
annual_cash_flow / ((1 + rate) ** year)`), used both for the `npv` metric
(with the fixed discount rate) and for each `npv_test` inside the IRR
bisection. -/
def npvLoop (annual_cash_flow net_capex : ℚ) (project_lifetime : ℕ) (rate : ℚ) : ℚ :=
  (List.range project_lifetime).foldl
    (fun npv i => npv + annual_cash_flow / (1 + rate) ^ (i + 1)) (-net_capex)

/-- The `tolerance` of the IRR bisection (capex_analysis.py, line 169). -/
def tolerance : ℚ := 1/1000

/-- The bisection loop of `calculate_financial_metrics` (lines 167-182),
abstracted over the residual-NPV function `f`.  `fuel` counts the loop
iterations still allowed after the current one: `fuel = 0` is the 100th
(last) iteration, whose midpoint is returned as `irr_test` whether or not
the tolerance test succeeds, exactly as the Python `for _ in range(100)`
loop leaves `irr_test` bound to the last midpoint computed. -/
def bisect (f : ℚ → ℚ) : ℕ → ℚ → ℚ → ℚ
  | 0, irr_low, irr_high => (irr_low + irr_high) / 2
  | fuel + 1, irr_low, irr_high =>
    let irr_test := (irr_low + irr_high) / 2
    let npv_test := f irr_test
    if |npv_test| < tolerance then irr_test
    else if npv_test > 0 then bisect f fuel irr_test irr_high
    else bisect f fuel irr_low irr_test

/-- The `metrics` dictionary returned by `calculate_financial_metrics`.
`payback_years = none` models the Python `float('inf')` sentinel. -/
structure Metrics where
  annual_cash_flow : ℚ
  payback_years : Option ℚ
  npv : ℚ
  irr : ℚ
  roi : ℚ
deriving DecidableEq

/-- `calculate_financial_metrics` (capex_analysis.py, lines 124-196).
The Python defaults are `project_lifetime = 25`, `discount_rate = 0.08`;
callers in this development always pass them explicitly. -/
def calculate_financial_metrics (annual_revenue annual_opex net_capex : ℚ)
    (project_lifetime : ℕ) (discount_rate : ℚ) : Metrics :=
  let annual_cash_flow := annual_revenue - annual_opex
  let payback_years :=
    if annual_cash_flow > 0 then some (net_capex / annual_cash_flow) else none
  let npv := npvLoop annual_cash_flow net_capex project_lifetime discount_rate
  let irr_test := bisect (npvLoop annual_cash_flow net_capex project_lifetime) 99 0 (1/2)
  let irr := if annual_cash_flow > 0 then irr_test else 0
  let total_revenue := annual_revenue * (project_lifetime : ℚ)
  let total_opex := annual_opex * (project_lifetime : ℚ)
  let total_profit := total_revenue - total_opex - net_capex
  let roi := if net_capex > 0 then (total_profit / net_capex) * 100 else 0
  { annual_cash_flow := annual_cash_flow
    payback_years := payback_years
    npv := npv
    irr := irr
    roi := roi }

end CapexAnalysis

namespace OptimizedScenarioConfig

/-- The `revenue_streams` dictionary shape of `optimized_scenario_config.py`
(lines 32-40): six named revenue categories plus the stored `total` key. -/
structure RevenueStreams where
  base_ppa : ℚ
  platform_fees : ℚ
  grid_services : ℚ
  ev_charging : ℚ
  rec_sales : ℚ
  digital_twin_licensing : ℚ
  total : ℚ
deriving DecidableEq

/-- One entry of the `sites` dictionary of `OPTIMIZED_CONFIG` (lines 53-69). -/
structure SiteConfig where
  solar_kw : ℚ
  battery_kw : ℚ
  battery_kwh : ℚ
deriving DecidableEq

/-- The fields of the `OPTIMIZED_CONFIG` dictionary used by the financial
calculator (optimized_scenario_config.py, lines 10-81).  Purely informational
entries (comparison percentages, pre-computed `financial_metrics`, battery
sub-dictionary) are not needed by any claim and are omitted. -/
structure OptimizedConfig where
  ppa_rate_cents_per_kwh : ℚ
  net_capex_usd : ℚ
  revenue_streams : RevenueStreams
  site_A : SiteConfig
  site_B : SiteConfig
  site_C : SiteConfig
  total_solar_kw : ℚ
  total_battery_kw : ℚ
  total_battery_kwh : ℚ
  annual_generation_mwh : ℚ
  annual_opex_usd : ℚ

/-- The literal values of `OPTIMIZED_CONFIG`. -/
def OPTIMIZED_CONFIG : OptimizedConfig :=
  { ppa_rate_cents_per_kwh := 754/100
    net_capex_usd := 4710145
    revenue_streams :=
      { base_ppa := 243000
        platform_fees := 19000
        grid_services := 60000
        ev_charging := 50000
        rec_sales := 30000
        digital_twin_licensing := 75000
        total := 477000 }
    site_A := { solar_kw := 550, battery_kw := 275, battery_kwh := 138 }
    site_B := { solar_kw := 380, battery_kw := 190, battery_kwh := 95 }
    site_C := { solar_kw := 800, battery_kw := 400, battery_kwh := 200 }
    total_solar_kw := 1730
    total_battery_kw := 865
    total_battery_kwh := 433
    annual_generation_mwh := 3219
    annual_opex_usd := 43000 }

/-!
Python dictionaries are mutable objects passed by reference; `.copy()`
allocates a fresh dictionary with the same contents.  To state the frame
properties about the module-level `OPTIMIZED_CONFIG` dictionary we model
the store of `revenue_streams`-shaped dictionaries as a list of records
indexed by allocation order.  Address 0 is the dictionary built at module
load and referenced by `OPTIMIZED_CONFIG['revenue_streams']`; `.copy()`
appends a fresh cell.  A parallel store holds the three site dictionaries
of `OPTIMIZED_CONFIG['sites']` at addresses 0, 1, 2.
-/

/-- Store of `revenue_streams`-shaped dictionaries. -/
abbrev RevHeap : Type := List RevenueStreams

/-- Contents of the dictionary at address `a` (all addresses used by the
embedded code are in range; the all-zero record is a dummy default). -/
def revLookup (h : RevHeap) (a : ℕ) : RevenueStreams :=
  List.getD h a ⟨0, 0, 0, 0, 0, 0, 0⟩

/-- Allocate a fresh `revenue_streams` dictionary (`dict.copy()`), returning
its address. -/
def revAlloc (h : RevHeap) (v : RevenueStreams) : ℕ × RevHeap :=
  (h.length, h ++ [v])

/-- Overwrite the dictionary at address `a` (a `d[key] = value` statement). -/
def revUpdate (h : RevHeap) (a : ℕ) (v : RevenueStreams) : RevHeap :=
  h.set a v

/-- The store as it stands after `optimized_scenario_config.py` is imported:
only the global `revenue_streams` dictionary exists, at address 0. -/
def initRevHeap : RevHeap := [OPTIMIZED_CONFIG.revenue_streams]

/-- Store of site-configuration dictionaries; `OPTIMIZED_CONFIG['sites']`
holds Site_A, Site_B, Site_C at addresses 0, 1, 2. -/
abbrev SiteHeap : Type := List SiteConfig

/-- Contents of the site dictionary at address `a`. -/
def siteLookup (h : SiteHeap) (a : ℕ) : SiteConfig :=
  List.getD h a ⟨0, 0, 0⟩

/-- Allocate a fresh site dictionary (`dict.copy()`). -/
def siteAlloc (h : SiteHeap) (v : SiteConfig) : ℕ × SiteHeap :=
  (h.length, h ++ [v])

/-- The site store at module load. -/
def initSiteHeap : SiteHeap :=
  [OPTIMIZED_CONFIG.site_A, OPTIMIZED_CONFIG.site_B, OPTIMIZED_CONFIG.site_C]

/-- Address of `OPTIMIZED_CONFIG['sites'][site_name]`; `none` models the
`site_name not in OPTIMIZED_CONFIG['sites']` membership test failing. -/
def siteAddr (site_name : String) : Option ℕ :=
  if site_name = "Site_A" then some 0
  else if site_name = "Site_B" then some 1
  else if site_name = "Site_C" then some 2
  else none

/-- `get_optimized_site_config` (optimized_scenario_config.py, lines
129-146): raises `ValueError` (modelled by `none`) for an unknown site,
otherwise returns `OPTIMIZED_CONFIG['sites'][site_name].copy()`. -/
def get_optimized_site_config (site_name : String) (h : SiteHeap) :
    Option (ℕ × SiteHeap) :=
  match siteAddr site_name with
  | none => none
  | some a => some (siteAlloc h (siteLookup h a))

/-- `get_optimized_capex` (lines 149-158). -/
def get_optimized_capex : ℚ := OPTIMIZED_CONFIG.net_capex_usd

/-- `get_optimized_revenue_streams` (lines 173-182): returns
`OPTIMIZED_CONFIG['revenue_streams'].copy()` — a fresh address holding the
contents of the global dictionary at address 0. -/
def get_optimized_revenue_streams (h : RevHeap) : ℕ × RevHeap :=
  revAlloc h (revLookup h 0)

/-- Sum of the six named revenue categories (everything except the stored
`total` key) of a `revenue_streams` dictionary. -/
def sum_named_components (r : RevenueStreams) : ℚ :=
  r.base_ppa + r.platform_fees + r.grid_services + r.ev_charging +
    r.rec_sales + r.digital_twin_licensing

end OptimizedScenarioConfig

namespace FinancialCalculator

open CapexAnalysis OptimizedScenarioConfig

/-- The dictionary returned by `calculate_current_metrics`
(financial_calculator.py, lines 27-32).  The `revenue` entry is the address
of the copied revenue-streams dictionary. -/
structure CurrentData where
  revenue : ℕ
  capex : ℚ
  opex : ℚ
  metrics : Metrics

/-- `calculate_current_metrics` (financial_calculator.py, lines 17-32). -/
def calculate_current_metrics (h : RevHeap) : CurrentData × RevHeap :=
  let p := get_optimized_revenue_streams h
  let rev := p.1
  let h1 := p.2
  let capex := get_optimized_capex
  let annual_opex := OPTIMIZED_CONFIG.annual_opex_usd
  let metrics :=
    calculate_financial_metrics (revLookup h1 rev).total annual_opex capex 25 (8/100)
  (⟨rev, capex, annual_opex, metrics⟩, h1)

/-- `calculate_scenario` (financial_calculator.py, lines 92-121).  The
`scenario_name` argument is only interpolated into printed output and does
not affect the computation, so it is dropped here.  Line 110
(`rev['total'] = rev['total'] + revenue_adjustment`) mutates only the
`total` key of the copy made on line 106. -/
def calculate_scenario (revenue_adjustment capex_adjustment : ℚ) (h : RevHeap) :
    Metrics × RevHeap :=
  let p := calculate_current_metrics h
  let data := p.1
  let h1 := p.2
  let q := revAlloc h1 (revLookup h1 data.revenue)
  let rev := q.1
  let h2 := q.2
  let capex := data.capex + capex_adjustment
  let annual_opex := data.opex
  let h3 := revUpdate h2 rev
    { revLookup h2 rev with total := (revLookup h2 rev).total + revenue_adjustment }
  let metrics :=
    calculate_financial_metrics (revLookup h3 rev).total annual_opex capex 25 (8/100)
  (metrics, h3)

end FinancialCalculator

/-!  Theorems.  The `Rat` arithmetic operations are restored to
`semireducible` so that concrete rational computations can be settled by
`decide` (the kernel reduces them regardless; the attribute only lets the
elaborator's `decide` front-end see through them). -/

set_option allowUnsafeReducibility true
attribute [semireducible] Rat.add Rat.sub Rat.mul Rat.div Rat.inv Rat.neg Rat.blt Rat.normalize

set_option maxRecDepth 40000

open CapexAnalysis OptimizedScenarioConfig FinancialCalculator

/-- The `annual_cash_flow` entry of `calculate_financial_metrics`. -/
theorem cfm_annual_cash_flow (ar ao nc : ℚ) (T : ℕ) (dr : ℚ) :
    ( calculate_financial_metrics ar ao nc T dr).annual_cash_flow = ar - ao := rfl

/-- The `payback_years` entry of `calculate_financial_metrics`. -/
theorem cfm_payback_years (ar ao nc : ℚ) (T : ℕ) (dr : ℚ) :
    ( calculate_financial_metrics ar ao nc T dr).payback_years =
      if ar - ao > 0 then some (nc / (ar - ao)) else none := rfl

/-- The `npv` entry of `calculate_financial_metrics`. -/
theorem cfm_npv (ar ao nc : ℚ) (T : ℕ) (dr : ℚ) :
    ( calculate_financial_metrics ar ao nc T dr).npv = npvLoop (ar - ao) nc T dr := rfl

/-- The `irr` entry of `calculate_financial_metrics`. -/
theorem cfm_irr (ar ao nc : ℚ) (T : ℕ) (dr : ℚ) :
    ( calculate_financial_metrics ar ao nc T dr).irr =
      if ar - ao > 0 then bisect (npvLoop (ar - ao) nc T) 99 0 (1/2) else 0 := rfl

/-- The `roi` entry of `calculate_financial_metrics`. -/
theorem cfm_roi (ar ao nc : ℚ) (T : ℕ) (dr : ℚ) :
    ( calculate_financial_metrics ar ao nc T dr).roi =
      if nc > 0 then ((ar * (T : ℚ) - ao * (T : ℚ) - nc) / nc) * 100 else 0 := rfl

/-- Claim C1: whenever the annual cash flow `annual_revenue − annual_opex`
is non-positive, `calculate_financial_metrics` returns `irr = 0` exactly,
for every `net_capex`, horizon and discount rate. -/
theorem irr_eq_zero_of_cash_flow_nonpos (ar ao nc : ℚ) (T : ℕ) (dr : ℚ)
    (h : ar - ao ≤ 0) :
    ( calculate_financial_metrics ar ao nc T dr).irr = 0 := by
  rw [cfm_irr, if_neg (not_lt.mpr h)]

/-- Witness for C1 at the literal scenario of the spec: revenue 0,
opex 10000, capex 100000 gives cash flow −10000 and IRR exactly 0. -/
theorem irr_eq_zero_of_cash_flow_nonpos_witness :
    ((0 : ℚ) - 10000 ≤ 0) ∧
      ( calculate_financial_metrics 0 10000 100000 25 (8/100)).irr = 0 :=
  ⟨by norm_num, irr_eq_zero_of_cash_flow_nonpos 0 10000 100000 25 (8/100) (by norm_num)⟩

/-- Claim C3: for positive annual cash flow and positive capex the payback
period is the plain quotient `net_capex / annual_cash_flow`, and for
non-positive cash flow it is the infinity sentinel (`none`). -/
theorem payback_years_formula (ar ao nc : ℚ) (T : ℕ) (dr : ℚ) :
    (0 < ar - ao → 0 < nc →
        ( calculate_financial_metrics ar ao nc T dr).payback_years =
          some (nc / (ar - ao))) ∧
      (ar - ao ≤ 0 →
        ( calculate_financial_metrics ar ao nc T dr).payback_years = none) := by
  constructor
  · intro h _
    rw [cfm_payback_years, if_pos h]
  · intro h
    rw [cfm_payback_years, if_neg (not_lt.mpr h)]

/-- Witness for C3: both branches exercised at concrete inputs. -/
theorem payback_years_formula_witness :
    (0 < (243000 : ℚ) - 43000 ∧ 0 < (4710145 : ℚ) ∧
        ( calculate_financial_metrics 243000 43000 4710145 25 (8/100)).payback_years =
          some (4710145 / (243000 - 43000))) ∧
      ((0 : ℚ) - 10000 ≤ 0 ∧
        ( calculate_financial_metrics 0 10000 100000 25 (8/100)).payback_years = none) :=
  ⟨⟨by norm_num, by norm_num,
      (payback_years_formula 243000 43000 4710145 25 (8/100)).1 (by norm_num) (by norm_num)⟩,
    ⟨by norm_num,
      (payback_years_formula 0 10000 100000 25 (8/100)).2 (by norm_num)⟩⟩

/-- The NPV accumulation loop equals the closed discounted-cash-flow sum. -/
theorem npvLoop_eq_sum (cf nc : ℚ) (T : ℕ) (r : ℚ) :
    npvLoop cf nc T r = -nc + ∑ t in Finset.Icc 1 T, cf / (1 + r) ^ t := by
  induction T with
  | zero => simp [npvLoop]
  | succ n ih =>
    unfold npvLoop at ih ⊢
    rw [List.range_succ, List.foldl_append, List.foldl_cons, List.foldl_nil, ih,
      Finset.sum_Icc_succ_top (by omega : 1 ≤ n + 1)]
    ring

/-- Claim C4: the `npv` field is the standard discounted cash flow
`−net_capex + Σ_{t=1..T} (annual_revenue − annual_opex) / (1+discount_rate)^t`,
taken at the fixed discount rate passed in (not at the scenario's IRR). -/
theorem npv_eq_discounted_cash_flow (ar ao nc : ℚ) (T : ℕ) (dr : ℚ) :
    ( calculate_financial_metrics ar ao nc T dr).npv =
      -nc + ∑ t in Finset.Icc 1 T, (ar - ao) / (1 + dr) ^ t := by
  rw [cfm_npv, npvLoop_eq_sum]

/-- Claim C5: for non-negative capacities the CAPEX breakdown satisfies
the aggregation invariants: the subtotal is the sum of the seven component
costs, the gross total is exactly `subtotal × 1.10`, the net total is
`gross total − ITC credit`, and the net total never exceeds the gross
total. -/
theorem site_capex_invariants (s b e : ℚ) (hs : 0 ≤ s) (hb : 0 ≤ b) (he : 0 ≤ e) :
    ( calculate_site_capex s b e).subtotal =
        ( calculate_site_capex s b e).solar_pv + ( calculate_site_capex s b e).battery_power +
          ( calculate_site_capex s b e).battery_energy + ( calculate_site_capex s b e).inverter +
          ( calculate_site_capex s b e).electrical + ( calculate_site_capex s b e).installation +
          ( calculate_site_capex s b e).engineering ∧
      ( calculate_site_capex s b e).total_capex =
        ( calculate_site_capex s b e).subtotal * (11/10) ∧
      ( calculate_site_capex s b e).net_capex =
        ( calculate_site_capex s b e).total_capex - ( calculate_site_capex s b e).itc_credit ∧
      ( calculate_site_capex s b e).net_capex ≤ ( calculate_site_capex s b e).total_capex := by
  refine ⟨?_, ?_, ?_, ?_⟩ <;> simp [calculate_site_capex, COST_ASSUMPTIONS] <;> ring_nf

/-- Witness for C5 at Site_A's capacities (550 kW solar, 550 kW / 1100 kWh
battery). -/
theorem site_capex_invariants_witness :
    (0 : ℚ) ≤ 550 ∧ (0 : ℚ) ≤ 550 ∧ (0 : ℚ) ≤ 1100 ∧
      ( calculate_site_capex 550 550 1100).subtotal =
          ( calculate_site_capex 550 550 1100).solar_pv +
            ( calculate_site_capex 550 550 1100).battery_power +
            ( calculate_site_capex 550 550 1100).battery_energy +
            ( calculate_site_capex 550 550 1100).inverter +
            ( calculate_site_capex 550 550 1100).electrical +
            ( calculate_site_capex 550 550 1100).installation +
            ( calculate_site_capex 550 550 1100).engineering ∧
        ( calculate_site_capex 550 550 1100).total_capex =
          ( calculate_site_capex 550 550 1100).subtotal * (11/10) ∧
        ( calculate_site_capex 550 550 1100).net_capex =
          ( calculate_site_capex 550 550 1100).total_capex -
            ( calculate_site_capex 550 550 1100).itc_credit ∧
        ( calculate_site_capex 550 550 1100).net_capex ≤
          ( calculate_site_capex 550 550 1100).total_capex :=
  ⟨by norm_num, by norm_num, by norm_num,
    site_capex_invariants 550 550 1100 (by norm_num) (by norm_num) (by norm_num)⟩

/-- Counterexample to claim C6: at zero solar capacity the unguarded
division `costs['total_capex'] / solar_capacity_kw` in
`calculate_site_capex` faults (modelled by `none`) instead of yielding the
sentinel `some 0` the claim promises. -/
theorem zero_solar_cost_per_kw_not_zero :
    ( calculate_site_capex 0 1 1).cost_per_kw = none ∧
      ( calculate_site_capex 0 1 1).cost_per_kw ≠ some 0 := by
  constructor <;> decide

/-- Claim C6 (amended): the ROI division guard does hold —
`calculate_financial_metrics` with `net_capex = 0` returns `roi = 0`
without faulting — but `calculate_site_capex` has no guard on its
cost-per-kW division: at `solar_capacity_kw = 0` that division faults
(`none`) rather than returning 0.  (The zero-solar sentinel `0` exists
only in `analyze_all_sites_capex`'s aggregate cost-per-kW, not here.) -/
theorem division_guards_amended :
    (∀ ar ao : ℚ, ∀ T : ℕ, ∀ dr : ℚ,
        ( calculate_financial_metrics ar ao 0 T dr).roi = 0) ∧
      ∀ b e : ℚ, ( calculate_site_capex 0 b e).cost_per_kw = none := by
  constructor
  · intro ar ao T dr
    rw [cfm_roi, if_neg (by norm_num)]
  · intro b e
    simp [calculate_site_capex]

/-- The bisection tolerance is positive. -/
theorem tolerance_pos : (0 : ℚ) < tolerance := by norm_num [tolerance]

/-- The bisection result always stays inside the current search interval. -/
theorem bisect_mem (f : ℚ → ℚ) (n : ℕ) : ∀ lo hi : ℚ, lo ≤ hi →
    lo ≤ bisect f n lo hi ∧ bisect f n lo hi ≤ hi := by
  induction n with
  | zero =>
    intro lo hi h
    simp only [bisect]
    constructor <;> linarith
  | succ n ih =>
    intro lo hi h
    have hmid1 : lo ≤ (lo + hi) / 2 := by linarith
    have hmid2 : (lo + hi) / 2 ≤ hi := by linarith
    simp only [bisect]
    by_cases h1 : |f ((lo + hi) / 2)| < tolerance
    · rw [if_pos h1]
      exact ⟨hmid1, hmid2⟩
    · rw [if_neg h1]
      by_cases h2 : f ((lo + hi) / 2) > 0
      · rw [if_pos h2]
        have hb := ih ((lo + hi) / 2) hi hmid2
        exact ⟨le_trans hmid1 hb.1, hb.2⟩
      · rw [if_neg h2]
        have hb := ih lo ((lo + hi) / 2) hmid1
        exact ⟨hb.1, le_trans hb.2 hmid2⟩

/-- Bisection is monotone in the residual function: if `f ≤ g` pointwise on
the search interval then the bisection root estimate for `f` is at most the
one for `g` (both searches descend through the same midpoints until their
sign/tolerance decisions diverge, and at the first divergence the `g`
search is trapped weakly to the right of the `f` search). -/
theorem bisect_le_bisect (f g : ℚ → ℚ) (n : ℕ) : ∀ lo hi : ℚ, lo ≤ hi →
    (∀ r, lo ≤ r → r ≤ hi → f r ≤ g r) →
    bisect f n lo hi ≤ bisect g n lo hi := by
  induction n with
  | zero =>
    intro lo hi _ _
    simp [bisect]
  | succ n ih =>
    intro lo hi h hfg
    have hmid1 : lo ≤ (lo + hi) / 2 := by linarith
    have hmid2 : (lo + hi) / 2 ≤ hi := by linarith
    have hm := hfg ((lo + hi) / 2) hmid1 hmid2
    simp only [bisect]
    by_cases hf : |f ((lo + hi) / 2)| < tolerance
    · rw [if_pos hf]
      by_cases hg : |g ((lo + hi) / 2)| < tolerance
      · rw [if_pos hg]
      · rw [if_neg hg]
        have hfl : -tolerance < f ((lo + hi) / 2) := (abs_lt.mp hf).1
        have hgpos : g ((lo + hi) / 2) > 0 := by
          rcases abs_cases (g ((lo + hi) / 2)) with ⟨he, hge⟩ | ⟨he, hge⟩
          · have := not_lt.mp hg
            rw [he] at this
            linarith [tolerance_pos]
          · have := not_lt.mp hg
            rw [he] at this
            linarith
        rw [if_pos hgpos]
        exact (bisect_mem g n ((lo + hi) / 2) hi hmid2).1
    · rw [if_neg hf]
      by_cases hg : |g ((lo + hi) / 2)| < tolerance
      · rw [if_pos hg]
        have hgl : g ((lo + hi) / 2) < tolerance := (abs_lt.mp hg).2
        have hfneg : ¬ f ((lo + hi) / 2) > 0 := by
          rcases abs_cases (f ((lo + hi) / 2)) with ⟨he, hge⟩ | ⟨he, hge⟩
          · have := not_lt.mp hf
            rw [he] at this
            linarith
          · have := not_lt.mp hf
            rw [he] at this
            intro hcon
            linarith [tolerance_pos]
        rw [if_neg hfneg]
        exact (bisect_mem f n lo ((lo + hi) / 2) hmid1).2
      · rw [if_neg hg]
        by_cases hf2 : f ((lo + hi) / 2) > 0
        · have hg2 : g ((lo + hi) / 2) > 0 := lt_of_lt_of_le hf2 hm
          rw [if_pos hf2, if_pos hg2]
          exact ih ((lo + hi) / 2) hi hmid2 fun r h1 h2 => hfg r (le_trans hmid1 h1) h2
        · rw [if_neg hf2]
          by_cases hg2 : g ((lo + hi) / 2) > 0
          · rw [if_pos hg2]
            exact le_trans (bisect_mem f n lo ((lo + hi) / 2) hmid1).2
              (bisect_mem g n ((lo + hi) / 2) hi hmid2).1
          · rw [if_neg hg2]
            exact ih lo ((lo + hi) / 2) hmid1 fun r h1 h2 => hfg r h1 (le_trans h2 hmid2)

/-- Claim C2: the returned IRR always lies in the fixed bisection bounds
`[0, 0.5]`, for every input (including cash flows whose true IRR would
exceed 50%, and non-positive cash flows, where 0 is returned). -/
theorem irr_within_bisection_bounds (ar ao nc : ℚ) (T : ℕ) (dr : ℚ) :
    0 ≤ ( calculate_financial_metrics ar ao nc T dr).irr ∧
      ( calculate_financial_metrics ar ao nc T dr).irr ≤ 1/2 := by
  rw [cfm_irr]
  by_cases h : ar - ao > 0
  · rw [if_pos h]
    exact bisect_mem _ 99 0 (1/2) (by norm_num)
  · rw [if_neg h]
    norm_num

/-- The NPV loop is monotone in the cash flow as long as the rate keeps
`1 + rate` positive (every discount factor is then positive). -/
theorem npvLoop_mono_cash_flow (cf cf' nc : ℚ) (T : ℕ) (r : ℚ)
    (hr : -1 < r) (hcf : cf ≤ cf') :
    npvLoop cf nc T r ≤ npvLoop cf' nc T r := by
  rw [npvLoop_eq_sum, npvLoop_eq_sum]
  have h1r : (0 : ℚ) < 1 + r := by linarith
  have : ∑ t in Finset.Icc 1 T, cf / (1 + r) ^ t ≤
      ∑ t in Finset.Icc 1 T, cf' / (1 + r) ^ t := by
    refine Finset.sum_le_sum fun t _ => ?_
    exact div_le_div_of_nonneg_right hcf (le_of_lt (pow_pos h1r t))
  linarith

/-- The NPV loop is antitone in the capital cost (which only enters through
the initial `-net_capex`), at every rate. -/
theorem npvLoop_anti_capex (cf nc nc' : ℚ) (T : ℕ) (r : ℚ) (hnc : nc ≤ nc') :
    npvLoop cf nc' T r ≤ npvLoop cf nc T r := by
  rw [npvLoop_eq_sum, npvLoop_eq_sum]
  linarith

/-- Counterexample to claim C8 as stated: with discount rate −2 (where the
discount factor `1 + rate` is negative) and a one-year horizon, raising the
annual revenue from 0 to 1 strictly lowers the returned NPV, because the
single cash flow is divided by the negative factor `(1 + (−2))^1 = −1`. -/
theorem monotonicity_counterexample :
    (0 : ℚ) ≤ 1 ∧
      ( calculate_financial_metrics 1 0 100 1 (-2)).npv <
        ( calculate_financial_metrics 0 0 100 1 (-2)).npv := by
  refine ⟨by norm_num, ?_⟩
  rw [cfm_npv, cfm_npv]
  norm_num [npvLoop, List.range_succ, List.range_zero,
    List.foldl_append, List.foldl_cons, List.foldl_nil]

/-- Claim C8 (amended): for every discount rate greater than −1 (in
particular every non-negative rate, and the 8% rate the program uses),
holding all other inputs fixed, increasing `annual_revenue` never decreases
the returned IRR or NPV, and increasing `net_capex` never increases them.
(The IRR half needs no rate hypothesis at all: the bisection never reads
the discount rate and only ever evaluates the residual NPV at rates in
`[0, 0.5]`.) -/
theorem monotonicity_amended (ar ar' ao nc nc' : ℚ) (T : ℕ) (dr : ℚ)
    (hdr : -1 < dr) :
    (ar ≤ ar' →
        ( calculate_financial_metrics ar ao nc T dr).irr ≤
            ( calculate_financial_metrics ar' ao nc T dr).irr ∧
          ( calculate_financial_metrics ar ao nc T dr).npv ≤
            ( calculate_financial_metrics ar' ao nc T dr).npv) ∧
      (nc ≤ nc' →
        ( calculate_financial_metrics ar ao nc' T dr).irr ≤
            ( calculate_financial_metrics ar ao nc T dr).irr ∧
          ( calculate_financial_metrics ar ao nc' T dr).npv ≤
            ( calculate_financial_metrics ar ao nc T dr).npv) := by
  constructor
  · intro har
    have hcf : ar - ao ≤ ar' - ao := by linarith
    constructor
    · rw [cfm_irr, cfm_irr]
      by_cases h1 : ar - ao > 0
      · rw [if_pos h1, if_pos (by linarith : ar' - ao > 0)]
        refine bisect_le_bisect _ _ 99 0 (1/2) (by norm_num) fun r h1r h2r => ?_
        exact npvLoop_mono_cash_flow _ _ nc T r (by linarith) hcf
      · rw [if_neg h1]
        by_cases h2 : ar' - ao > 0
        · rw [if_pos h2]
          exact (bisect_mem _ 99 0 (1/2) (by norm_num)).1
        · rw [if_neg h2]
    · rw [cfm_npv, cfm_npv]
      exact npvLoop_mono_cash_flow _ _ nc T dr hdr hcf
  · intro hnc
    constructor
    · rw [cfm_irr, cfm_irr]
      by_cases h1 : ar - ao > 0
      · rw [if_pos h1, if_pos h1]
        refine bisect_le_bisect _ _ 99 0 (1/2) (by norm_num) fun r h1r h2r => ?_
        exact npvLoop_anti_capex (ar - ao) nc nc' T r hnc
      · rw [if_neg h1, if_neg h1]
    · rw [cfm_npv, cfm_npv]
      exact npvLoop_anti_capex (ar - ao) nc nc' T dr hnc

/-- Witness for the amended C8 at the program's own inputs: raising annual
revenue from 243000 to 477000 (and, separately, raising capex from 4710145
to 5000000) with opex 43000, horizon 25, discount rate 8%. -/
theorem monotonicity_amended_witness :
    (-1 : ℚ) < 8/100 ∧ (243000 : ℚ) ≤ 477000 ∧ (4710145 : ℚ) ≤ 5000000 ∧
      (( calculate_financial_metrics 243000 43000 4710145 25 (8/100)).irr ≤
          ( calculate_financial_metrics 477000 43000 4710145 25 (8/100)).irr ∧
        ( calculate_financial_metrics 243000 43000 4710145 25 (8/100)).npv ≤
          ( calculate_financial_metrics 477000 43000 4710145 25 (8/100)).npv) ∧
      (( calculate_financial_metrics 243000 43000 5000000 25 (8/100)).irr ≤
          ( calculate_financial_metrics 243000 43000 4710145 25 (8/100)).irr ∧
        ( calculate_financial_metrics 243000 43000 5000000 25 (8/100)).npv ≤
          ( calculate_financial_metrics 243000 43000 4710145 25 (8/100)).npv) :=
  ⟨by norm_num, by norm_num, by norm_num,
    (monotonicity_amended 243000 477000 43000 4710145 5000000 25 (8/100)
        (by norm_num)).1 (by norm_num),
    (monotonicity_amended 243000 477000 43000 4710145 5000000 25 (8/100)
        (by norm_num)).2 (by norm_num)⟩

/-- Reading a freshly allocated dictionary returns its initial contents. -/
theorem revLookup_alloc_new (h : RevHeap) (v : RevenueStreams) :
    revLookup (h ++ [v]) h.length = v := by
  simp [revLookup, List.getD_append_right, List.getD]

/-- Allocation does not change the dictionaries already in the store. -/
theorem revLookup_alloc_old (h : RevHeap) (v : RevenueStreams) (a : ℕ)
    (ha : a < h.length) :
    revLookup (h ++ [v]) a = revLookup h a := by
  simp [revLookup, List.getD, List.getElem?_append, ha]

/-- Writing a dictionary in range is read back. -/
theorem revLookup_update_self (h : RevHeap) (v : RevenueStreams) (a : ℕ)
    (ha : a < h.length) :
    revLookup (revUpdate h a v) a = v := by
  simp [revLookup, revUpdate, List.getD, List.getElem?_set_self', ha]

/-- Writing one dictionary leaves every other address unchanged. -/
theorem revLookup_update_other (h : RevHeap) (v : RevenueStreams) (a b : ℕ)
    (hab : a ≠ b) :
    revLookup (revUpdate h a v) b = revLookup h b := by
  simp [revLookup, revUpdate, List.getD, List.getElem?_set_ne hab]

/-- Address 0 (the global `OPTIMIZED_CONFIG['revenue_streams']`) is
untouched by an allocation, even in a degenerate store where it is the
cell being created with its own default contents. -/
theorem revLookup_alloc_zero (h : RevHeap) :
    revLookup (h ++ [revLookup h 0]) 0 = revLookup h 0 := by
  cases h <;> simp [revLookup]

/-- Allocation on a non-empty store preserves address 0. -/
theorem revLookup_alloc_zero_of_ne_nil (h : RevHeap) (v : RevenueStreams)
    (hh : 0 < h.length) :
    revLookup (h ++ [v]) 0 = revLookup h 0 :=
  revLookup_alloc_old h v 0 hh

/-- Site-store analogue: allocation preserves the existing site
dictionaries. -/
theorem siteLookup_alloc_old (h : SiteHeap) (v : SiteConfig) (a : ℕ)
    (ha : a < h.length) :
    siteLookup (h ++ [v]) a = siteLookup h a := by
  simp [siteLookup, List.getD, List.getElem?_append, ha]

/-- `calculate_current_metrics` leaves the store extended by one copy:
the returned data's `revenue` address is the fresh cell `h.length`, holding
the contents of the global dictionary, and every existing cell is intact. -/
theorem calculate_current_metrics_heap (h : RevHeap) :
    ( calculate_current_metrics h).2 = h ++ [revLookup h 0] ∧
      ( calculate_current_metrics h).1.revenue = h.length := by
  constructor <;> rfl

/-- The store `calculate_scenario` leaves behind: two fresh copies of the
global revenue dictionary, the second with only its `total` key adjusted
(`rev['total'] = rev['total'] + revenue_adjustment`). -/
theorem calculate_scenario_heap (radj cadj : ℚ) (h : RevHeap) :
    ( calculate_scenario radj cadj h).2 =
      revUpdate ((h ++ [revLookup h 0]) ++ [revLookup (h ++ [revLookup h 0]) h.length])
        (h ++ [revLookup h 0]).length
        { revLookup ((h ++ [revLookup h 0]) ++ [revLookup (h ++ [revLookup h 0]) h.length])
            (h ++ [revLookup h 0]).length with
          total := (revLookup ((h ++ [revLookup h 0]) ++
              [revLookup (h ++ [revLookup h 0]) h.length])
              (h ++ [revLookup h 0]).length).total + radj } := by
  rfl

/-- The adjusted revenue dictionary `calculate_scenario` builds at address
`h.length + 1`: the contents of the global dictionary with only `total`
shifted by the revenue adjustment. -/
theorem calculate_scenario_adjusted_cell (radj cadj : ℚ) (h : RevHeap) :
    revLookup ( calculate_scenario radj cadj h).2 (h.length + 1) =
      { revLookup h 0 with total := (revLookup h 0).total + radj } := by
  rw [calculate_scenario_heap, revLookup_alloc_new h (revLookup h 0)]
  have hl : (h ++ [revLookup h 0]).length = h.length + 1 := by simp
  rw [hl, revLookup_update_self _ _ _ (by simp), ← hl, revLookup_alloc_new]

/-- Claim C10: `get_optimized_revenue_streams` and
`get_optimized_site_config` hand out fresh copies of the configuration
dictionaries, so `calculate_current_metrics` and `calculate_scenario`
(which mutates the `total` key of the copy it receives) never change the
global `OPTIMIZED_CONFIG`: the dictionary at address 0 (resp. the site
dictionaries) reads the same after every invocation. -/
theorem config_frame_preservation :
    (∀ h : RevHeap, revLookup ( calculate_current_metrics h).2 0 = revLookup h 0) ∧
      (∀ h : RevHeap, ∀ radj cadj : ℚ,
        revLookup ( calculate_scenario radj cadj h).2 0 = revLookup h 0) ∧
      (∀ h : RevHeap, (get_optimized_revenue_streams h).1 = h.length ∧
        revLookup (get_optimized_revenue_streams h).2 (get_optimized_revenue_streams h).1 =
          revLookup h 0 ∧
        ∀ a : ℕ, a < h.length →
          revLookup (get_optimized_revenue_streams h).2 a = revLookup h a) ∧
      ∀ sh : SiteHeap, ∀ site_name : String, ∀ p : ℕ × SiteHeap,
        get_optimized_site_config site_name sh = some p →
          p.1 = sh.length ∧
            ∀ a : ℕ, a < sh.length → siteLookup p.2 a = siteLookup sh a := by
  refine ⟨?_, ?_, ?_, ?_⟩
  · intro h
    rw [(calculate_current_metrics_heap h).1]
    exact revLookup_alloc_zero h
  · intro h radj cadj
    rw [calculate_scenario_heap]
    have hl : (h ++ [revLookup h 0]).length = h.length + 1 := by simp
    rw [hl, revLookup_update_other _ _ _ _ (by omega)]
    rw [revLookup_alloc_zero_of_ne_nil _ _ (by simp), revLookup_alloc_zero]
  · intro h
    refine ⟨rfl, revLookup_alloc_new h (revLookup h 0), fun a ha => ?_⟩
    exact revLookup_alloc_old h (revLookup h 0) a ha
  · intro sh site_name p hp
    cases hsa : siteAddr site_name with
    | none =>
      unfold get_optimized_site_config at hp
      rw [hsa] at hp
      exact absurd hp (by simp)
    | some a =>
      unfold get_optimized_site_config at hp
      rw [hsa] at hp
      obtain rfl := Option.some.inj hp
      exact ⟨rfl, fun b hb => siteLookup_alloc_old sh (siteLookup sh a) b hb⟩

/-- Witness for C10: a literal run from the freshly imported module state,
with the `revenue_adjustment = 20000` "Optimistic" scenario the script
itself executes, and a copy of Site_A's configuration. -/
theorem config_frame_preservation_witness :
    revLookup ( calculate_scenario 20000 0 initRevHeap).2 0 = revLookup initRevHeap 0 ∧
      revLookup ( calculate_current_metrics initRevHeap).2 0 = revLookup initRevHeap 0 ∧
      get_optimized_site_config "Site_A" initSiteHeap =
        some (3, initSiteHeap ++ [OPTIMIZED_CONFIG.site_A]) ∧
      (0 : ℕ) < initSiteHeap.length ∧
      siteLookup (initSiteHeap ++ [OPTIMIZED_CONFIG.site_A]) 0 = siteLookup initSiteHeap 0 :=
  ⟨config_frame_preservation.2.1 initRevHeap 20000 0,
    config_frame_preservation.1 initRevHeap,
    by decide, by decide,
    (config_frame_preservation.2.2.2 initSiteHeap "Site_A"
        (3, initSiteHeap ++ [OPTIMIZED_CONFIG.site_A]) (by decide)).2 0 (by decide)⟩

/-- Counterexample to claim C7: in the "Conservative" scenario the script
itself runs (`revenue_adjustment = -20000`), the adjusted revenue mapping
used inside `calculate_scenario` has `total = 457000` while its named
components still sum to 477000, so the `total` entry does not equal the
component sum. -/
theorem revenue_total_counterexample :
    sum_named_components
        (revLookup ( calculate_scenario (-20000) 0 initRevHeap).2 2) ≠
      (revLookup ( calculate_scenario (-20000) 0 initRevHeap).2 2).total := by
  decide

/-- Claim C7 (amended): the `total = sum of named components` invariant
holds for `OPTIMIZED_CONFIG['revenue_streams']` and is preserved by the
copy `get_optimized_revenue_streams` returns; but the adjusted mapping
built inside `calculate_scenario` increments only `total`, so it satisfies
the invariant exactly when `revenue_adjustment = 0`. -/
theorem revenue_total_invariant_amended :
    (sum_named_components OPTIMIZED_CONFIG.revenue_streams =
        OPTIMIZED_CONFIG.revenue_streams.total) ∧
      (∀ h : RevHeap,
        sum_named_components (revLookup h 0) = (revLookup h 0).total →
          sum_named_components
              (revLookup (get_optimized_revenue_streams h).2
                (get_optimized_revenue_streams h).1) =
            (revLookup (get_optimized_revenue_streams h).2
                (get_optimized_revenue_streams h).1).total) ∧
      ∀ h : RevHeap, ∀ radj cadj : ℚ,
        sum_named_components (revLookup h 0) = (revLookup h 0).total →
          (sum_named_components
                (revLookup ( calculate_scenario radj cadj h).2 (h.length + 1)) =
              (revLookup ( calculate_scenario radj cadj h).2 (h.length + 1)).total ↔
            radj = 0) := by
  refine ⟨by decide, ?_, ?_⟩
  · intro h hinv
    show sum_named_components (revLookup (h ++ [revLookup h 0]) h.length) =
      (revLookup (h ++ [revLookup h 0]) h.length).total
    rw [revLookup_alloc_new h (revLookup h 0)]
    exact hinv
  · intro h radj cadj hinv
    rw [calculate_scenario_adjusted_cell]
    rcases hg : revLookup h 0 with ⟨b, pf, gs, ev, rc, dt, tt⟩
    rw [hg] at hinv
    simp only [sum_named_components] at hinv ⊢
    constructor <;> intro h' <;> linarith

/-- Witness for the amended C7, at the module-load store and zero
adjustment. -/
theorem revenue_total_invariant_amended_witness :
    (sum_named_components (revLookup initRevHeap 0) = (revLookup initRevHeap 0).total) ∧
      (sum_named_components
            (revLookup ( calculate_scenario 0 0 initRevHeap).2 (initRevHeap.length + 1)) =
          (revLookup ( calculate_scenario 0 0 initRevHeap).2 (initRevHeap.length + 1)).total ↔
        (0 : ℚ) = 0) :=
  ⟨by decide,
    revenue_total_invariant_amended.2.2 initRevHeap 0 0 (by decide)⟩

/-- Counterexample to claim C9: at the spec's concrete inputs
(revenue 243000, opex 43000, capex 4710145, 25 years, 8%) the bisection
returns an IRR below 1%, i.e. about 0.46% — not a value in the low
single-digit percent range. -/
theorem concrete_scenario_counterexample :
    ( calculate_financial_metrics 243000 43000 4710145 25 (8/100)).irr < 1/100 := by
  decide

/-- Claim C9 (amended): at the spec's concrete inputs the annual cash flow
is exactly 200000, the payback period is exactly 4710145/200000 years
(which rounds to 23.6), and the bisection IRR lies strictly between 0.4%
and 0.5% (hence about 0.46%, below the 1% mark and far below the 10%
target), pinned to well within 0.1 percentage point. -/
theorem concrete_scenario_amended :
    ( calculate_financial_metrics 243000 43000 4710145 25 (8/100)).annual_cash_flow =
        200000 ∧
      ( calculate_financial_metrics 243000 43000 4710145 25 (8/100)).payback_years =
        some (4710145/200000) ∧
      |(4710145 : ℚ)/200000 - 236/10| < 1/20 ∧
      4/1000 < ( calculate_financial_metrics 243000 43000 4710145 25 (8/100)).irr ∧
      ( calculate_financial_metrics 243000 43000 4710145 25 (8/100)).irr < 5/1000 := by
  refine ⟨by decide, by decide, by decide, by decide, by decide⟩
